import Mathlib

/-!
Verification development for the code-execution backend server
(`server.ts`): the `executeCode` orchestration function and the
`/api/execute` and `/api/abort` Express routes.

The TypeScript source is shallowly embedded: the filesystem is an
association list of paths to contents, spawned child processes are
described by an `Env` record chosen by the environment (exit code,
stdout/stderr chunks, running time), and `executeCode` is a pure
function from the environment and the request to an outcome, an
ordered event trace (writes, spawns, unlinks, kills) and the final
set of on-disk files.
-/

namespace CodeRunner

/-! ## Basic string machinery

JavaScript string/regex operations used by the server, modelled over
`List Char`.  `\s` is modelled by the common ASCII whitespace
characters, `\w` by `[A-Za-z0-9_]`, `\d` by `[0-9]`, all matching the
characters the server's inputs can actually contain. -/

/-- ASCII whitespace, modelling both JavaScript's `\s` class and the
characters removed by `String.prototype.trim`. -/
def isJsWs (c : Char) : Bool :=
  c = ' ' || c = '\t' || c = '\n' || c = '\r' || c = '\x0b' || c = '\x0c'

/-- JavaScript's `\w` character class: `[A-Za-z0-9_]`. -/
def isWordChar (c : Char) : Bool :=
  c.isAlpha || c.isDigit || c = '_'

/-- Characters matched by `[\d.]` in the performance-marker regexes. -/
def isDigitOrDot (c : Char) : Bool :=
  c.isDigit || c = '.'

/-- Model of `String.prototype.trim`: drop whitespace at both ends. -/
def trimStr (s : String) : String :=
  String.mk (((s.toList.dropWhile isJsWs).reverse.dropWhile isJsWs).reverse)

/-- Does `pat` occur as a contiguous substring of `s` (starting at any
position)?  Used to state properties about generated file contents. -/
def hasSubAux (pat : List Char) : List Char → Bool
  | [] => pat.isEmpty
  | c :: cs => pat.isPrefixOf (c :: cs) || hasSubAux pat cs

/-- String-level substring test. -/
def containsSub (pat s : String) : Bool :=
  hasSubAux pat.toList s.toList

/-- Numeric value of a digit string (JavaScript `parseInt` on a `\d+`
capture). -/
def digitsVal (cs : List Char) : Nat :=
  cs.foldl (fun a c => a * 10 + (c.toNat - 48)) 0

/-- JavaScript `parseFloat` restricted to strings over `[0-9.]` (the
only strings the marker regexes can capture): an optional integer
part, an optional `.` followed by an optional fraction part; `none`
models `NaN` (no digit at all before the parse stops). -/
def parseFloatQ (cs : List Char) : Option ℚ :=
  let ip := cs.takeWhile Char.isDigit
  let rest := cs.dropWhile Char.isDigit
  match rest with
  | '.' :: rest2 =>
      let fp := rest2.takeWhile Char.isDigit
      if ip.isEmpty && fp.isEmpty then none
      else some ((digitsVal ip : ℚ) + (digitsVal fp : ℚ) / ((10 : ℚ) ^ fp.length))
  | _ => if ip.isEmpty then none else some (digitsVal ip)

/-! ## The marker regexes

`/Execution Time: ([\d.]+) s/`, `/Memory Usage: ([\d.]+) MB/` and
(java path) `/Execution Time: (\d+) ns/`.  At a fixed start position a
greedy `([\d.]+)` followed by a literal whose first character is a
space is equivalent to taking the maximal run of `[\d.]` characters
and then requiring the literal, because a shorter capture would be
followed by another `[\d.]` character, never by a space. -/

/-- Try to match `pre`, then a nonempty run of characters satisfying
`p` (the capture), then `post`, anchored at the start of `cs`. -/
def markerHere (p : Char → Bool) (pre post cs : List Char) : Option (List Char) :=
  if pre.isPrefixOf cs then
    let after := cs.drop pre.length
    let run := after.takeWhile p
    let rest := after.dropWhile p
    if !run.isEmpty && post.isPrefixOf rest then some run else none
  else none

/-- Scan for the leftmost match of the marker pattern (JavaScript
`String.prototype.match` without the `g` flag). -/
def scanMarker (p : Char → Bool) (pre post : List Char) : List Char → Option (List Char)
  | [] => none
  | c :: cs =>
    match markerHere p pre post (c :: cs) with
    | some r => some r
    | none => scanMarker p pre post cs

/-- `/Execution Time: ([\d.]+) s/` applied to one stdout chunk,
returning the `parseFloat` of the capture (`none` = no match or NaN;
the NaN case behaves like the value 0 downstream, see `foldTime`). -/
def timeMarkerScanStr (s : String) : Option ℚ :=
  (scanMarker isDigitOrDot "Execution Time: ".toList " s".toList s.toList).bind parseFloatQ

/-- `/Memory Usage: ([\d.]+) MB/` applied to one stdout chunk. -/
def memMarkerScanStr (s : String) : Option ℚ :=
  (scanMarker isDigitOrDot "Memory Usage: ".toList " MB".toList s.toList).bind parseFloatQ

/-- `/Execution Time: (\d+) ns/` applied to one stdout chunk (java
path), with `parseInt` of the capture. -/
def nsMarkerScanStr (s : String) : Option Nat :=
  (scanMarker Char.isDigit "Execution Time: ".toList " ns".toList s.toList).map digitsVal

/-- The stdout `data` handler mutates `executionTime` on every chunk
whose text matches the time regex; the final value is the last match
(0 when no chunk ever matched; a NaN parse is conflated with 0, which
is equivalent downstream because both are falsy at the
`if (!executionTime)` fallback check). -/
def foldTime (chunks : List String) : ℚ :=
  chunks.foldl (fun acc ch =>
    match scanMarker isDigitOrDot "Execution Time: ".toList " s".toList ch.toList with
    | some run => (parseFloatQ run).getD 0
    | none => acc) 0

/-- Same per-chunk mutation for `memoryUsage`. -/
def foldMem (chunks : List String) : ℚ :=
  chunks.foldl (fun acc ch =>
    match scanMarker isDigitOrDot "Memory Usage: ".toList " MB".toList ch.toList with
    | some run => (parseFloatQ run).getD 0
    | none => acc) 0

/-- Java-path per-chunk mutation of the nanosecond `executionTime`. -/
def foldNs (chunks : List String) : Nat :=
  chunks.foldl (fun acc ch =>
    match scanMarker Char.isDigit "Execution Time: ".toList " ns".toList ch.toList with
    | some run => digitsVal run
    | none => acc) 0

/-! ## The strip regex

`output.replace(/Performance Metrics:.*Memory Usage: [\d.]+ MB\n?/s, '')`.
With the `s` flag, `.*` is greedy over the whole string: the match
starts at the leftmost occurrence of `Performance Metrics:` that is
followed (at distance ≥ its own length) by an occurrence of the
memory pattern, and ends at the end of the *last* occurrence of the
memory pattern (including a directly following newline, `\n?` being
greedy). -/

/-- If the pattern `Memory Usage: [\d.]+ MB\n?` matches at the start
of `cs`, return the number of characters it consumes. -/
def memMatchLen (cs : List Char) : Option Nat :=
  let pre := "Memory Usage: ".toList
  if pre.isPrefixOf cs then
    let after := cs.drop pre.length
    let run := after.takeWhile isDigitOrDot
    let rest := after.dropWhile isDigitOrDot
    if !run.isEmpty && (" MB".toList.isPrefixOf rest) then
      let len := pre.length + run.length + 3
      match rest.drop 3 with
      | '\n' :: _ => some (len + 1)
      | _ => some len
    else none
  else none

/-- Start and end positions of the last match of the memory pattern
in the string. -/
def lastMemMatchAux : List Char → Nat → Option (Nat × Nat) → Option (Nat × Nat)
  | [], _, best => best
  | c :: cs, i, best =>
    let best' := match memMatchLen (c :: cs) with
      | some l => some (i, i + l)
      | none => best
    lastMemMatchAux cs (i + 1) best'

/-- First position `h` at which `Performance Metrics:` matches with
`h + 20 ≤ ms` (so that `.*` can span from the end of the header to
the start of the last memory match at `ms`). -/
def firstHeaderLE (ms : Nat) : List Char → Nat → Option Nat
  | [], _ => none
  | c :: cs, i =>
    if "Performance Metrics:".toList.isPrefixOf (c :: cs) && decide (i + 20 ≤ ms)
    then some i
    else firstHeaderLE ms cs (i + 1)

/-- Model of the strip `replace` call: remove the single region from
the qualifying header occurrence to the end of the last memory-marker
match; the string is unchanged when the regex does not match. -/
def stripPerfMetrics (s : String) : String :=
  let cs := s.toList
  match lastMemMatchAux cs 0 none with
  | none => s
  | some (ms, me) =>
    match firstHeaderLE ms cs 0 with
    | none => s
    | some h => String.mk (cs.take h ++ cs.drop me)

/-! ## Class-name extraction

`code.match(/public\s+class\s+(\w+)/)`: at a given start position the
greedy `\s+` runs cannot backtrack usefully (a shorter whitespace run
ends on a whitespace character, which can never begin the following
literal), so maximal runs are faithful. -/

/-- Try to match `public\s+class\s+(\w+)` anchored at the start,
returning the captured word. -/
def pubClassHere (cs : List Char) : Option (List Char) :=
  if "public".toList.isPrefixOf cs then
    let r1 := cs.drop 6
    let ws1 := r1.takeWhile isJsWs
    if ws1.isEmpty then none else
    let r2 := r1.drop ws1.length
    if "class".toList.isPrefixOf r2 then
      let r3 := r2.drop 5
      let ws2 := r3.takeWhile isJsWs
      if ws2.isEmpty then none else
      let r4 := r3.drop ws2.length
      let name := r4.takeWhile isWordChar
      if name.isEmpty then none else some name
    else none
  else none

/-- Leftmost match of the public-class pattern. -/
def scanPubClass : List Char → Option (List Char)
  | [] => none
  | c :: cs =>
    match pubClassHere (c :: cs) with
    | some n => some n
    | none => scanPubClass cs

/-- `const className = classNameMatch ? classNameMatch[1] : 'Main';` -/
def extractClassName (code : String) : String :=
  match scanPubClass code.toList with
  | some n => String.mk n
  | none => "Main"

/-! ## Materializer templates

Verbatim transcriptions of the template literals the server writes to
disk.  Braces are written `\x7b`/`\x7d` and apostrophes `\x27`. -/

/-- The JavaScript wrapper (`wrappedCode`): user code inside a
`try`/`catch` with `process.hrtime` timing and the two
performance-marker `console.log` lines. -/
def wrappedCode (code : String) : String :=
  "\n          try \x7b\n" ++
  "            const startTime = process.hrtime.bigint();\n" ++
  "            const startMemory = process.memoryUsage();\n" ++
  "            \n" ++
  "            " ++ code ++ "\n" ++
  "            \n" ++
  "            const endTime = process.hrtime.bigint();\n" ++
  "            const endMemory = process.memoryUsage();\n" ++
  "            \n" ++
  "            // Calculate execution time in seconds\n" ++
  "            const executionTime = Number(endTime - startTime) / 1_000_000_000;\n" ++
  "            \n" ++
  "            // Calculate memory usage in MB\n" ++
  "            const memoryUsed = (endMemory.heapUsed - startMemory.heapUsed) / 1024 / 1024;\n" ++
  "            \n" ++
  "            console.log(\"Performance Metrics:\");\n" ++
  "            console.log(\"Execution Time:\", executionTime.toFixed(3), \"s\");\n" ++
  "            console.log(\"Memory Usage:\", memoryUsed.toFixed(2), \"MB\");\n" ++
  "          \x7d catch (error) \x7b\n" ++
  "            console.error(\x27Error:\x27, error.message);\n" ++
  "            process.exit(1);\n" ++
  "          \x7d\n" ++
  "        "

/-- The Python wrapper (`pythonCode`): user code indented four spaces
inside a `try`, with `time.time()` timing and f-string marker
prints. -/
def pythonWrapped (code : String) : String :=
  "\nimport sys\n" ++
  "import os\n" ++
  "import time\n" ++
  "import gc\n" ++
  "\n" ++
  "def get_memory_usage():\n" ++
  "    # Force garbage collection\n" ++
  "    gc.collect()\n" ++
  "    # Get memory usage in MB\n" ++
  "    return os.getpid()  # Just return process ID for now\n" ++
  "\n" ++
  "try:\n" ++
  "    start_time = time.time()\n" ++
  "    start_memory = get_memory_usage()\n" ++
  "    \n" ++
  "    # User\x27s code with proper indentation\n" ++
  String.intercalate "\n" ((code.splitOn "\n").map (fun l => "    " ++ l)) ++ "\n" ++
  "    \n" ++
  "    end_time = time.time()\n" ++
  "    end_memory = get_memory_usage()\n" ++
  "    \n" ++
  "    execution_time = end_time - start_time\n" ++
  "    # For Windows, we\x27ll use a simple memory estimate\n" ++
  "    memory_used = 0.0  # Memory tracking disabled for Windows compatibility\n" ++
  "    \n" ++
  "    print(\"Performance Metrics:\")\n" ++
  "    print(f\"Execution Time: \x7bexecution_time:.3f\x7d s\")\n" ++
  "    print(f\"Memory Usage: \x7bmemory_used:.2f\x7d MB\")\n" ++
  "except Exception as e:\n" ++
  "    print(f\x27Error: \x7bstr(e)\x7d\x27, file=sys.stderr)\n" ++
  "    sys.exit(1)\n"

/-- The C++ wrapper (`cppCode`): a `Performance::Timer` helper is
prepended above the user's verbatim code. -/
def cppWrapped (code : String) : String :=
  "\n#include <iostream>\n" ++
  "#include <chrono>\n" ++
  "#include <vector>\n" ++
  "#include <iomanip>\n" ++
  "\n" ++
  "using namespace std;\n" ++
  "\n" ++
  "// Performance tracking functions\n" ++
  "namespace Performance \x7b\n" ++
  "    class Timer \x7b\n" ++
  "    private:\n" ++
  "        chrono::high_resolution_clock::time_point start;\n" ++
  "    public:\n" ++
  "        Timer() \x7b\n" ++
  "            start = chrono::high_resolution_clock::now();\n" ++
  "        \x7d\n" ++
  "        \n" ++
  "        void stop() \x7b\n" ++
  "            auto end = chrono::high_resolution_clock::now();\n" ++
  "            auto duration = chrono::duration_cast<chrono::milliseconds>(end - start);\n" ++
  "            double executionTime = duration.count() / 1000.0;\n" ++
  "            \n" ++
  "            cout << \"Performance Metrics:\" << endl;\n" ++
  "            cout << \"Execution Time: \" << fixed << setprecision(3) << executionTime << \" s\" << endl;\n" ++
  "            cout << \"Memory Usage: 0.00 MB\" << endl;\n" ++
  "        \x7d\n" ++
  "    \x7d;\n" ++
  "\x7d\n" ++
  "\n" ++
  code

/-- The java-case template (`javaProgram`): a complete, fixed program
parameterized only by the extracted class name — the submitted source
never appears in it. -/
def javaProgram (className : String) : String :=
  "\npublic class " ++ className ++ " \x7b\n" ++
  "    public static void main(String[] args) \x7b\n" ++
  "        // Start timing in nanoseconds\n" ++
  "        long startTime = System.nanoTime();\n" ++
  "        \n" ++
  "        try \x7b\n" ++
  "            // Create a large array to sort\n" ++
  "            int[] arr = new int[10000];\n" ++
  "            for (int i = 0; i < arr.length; i++) \x7b\n" ++
  "                arr[i] = (int)(Math.random() * 10000);\n" ++
  "            \x7d\n" ++
  "            \n" ++
  "            System.out.println(\"Original array (first 10 elements):\");\n" ++
  "            for (int i = 0; i < 10; i++) \x7b\n" ++
  "                System.out.print(arr[i] + \" \");\n" ++
  "            \x7d\n" ++
  "            System.out.println(\"...\");\n" ++
  "            \n" ++
  "            // Start sorting\n" ++
  "            System.out.println(\"\\nSorting array...\");\n" ++
  "            quickSort(arr, 0, arr.length - 1);\n" ++
  "            \n" ++
  "            System.out.println(\"\\nSorted array (first 10 elements):\");\n" ++
  "            for (int i = 0; i < 10; i++) \x7b\n" ++
  "                System.out.print(arr[i] + \" \");\n" ++
  "            \x7d\n" ++
  "            System.out.println(\"...\");\n" ++
  "            \n" ++
  "            // Force flush the output buffer\n" ++
  "            System.out.flush();\n" ++
  "            \n" ++
  "            // Sleep for 2500ms to ensure consistent execution time\n" ++
  "            Thread.sleep(2500);\n" ++
  "            \n" ++
  "        \x7d catch (Exception e) \x7b\n" ++
  "            System.err.println(\"Error: \" + e.getMessage());\n" ++
  "            System.exit(1);\n" ++
  "        \x7d\n" ++
  "        \n" ++
  "        // Calculate execution time in nanoseconds\n" ++
  "        long endTime = System.nanoTime();\n" ++
  "        long executionTimeNanos = endTime - startTime;\n" ++
  "        \n" ++
  "        // Print performance metrics\n" ++
  "        System.out.println(\"Performance Metrics:\");\n" ++
  "        System.out.println(\"Execution Time: \" + executionTimeNanos + \" ns\");\n" ++
  "        System.out.println(\"Memory Usage: 0.00 MB\");\n" ++
  "    \x7d\n" ++
  "    \n" ++
  "    private static void quickSort(int[] arr, int low, int high) \x7b\n" ++
  "        if (low < high) \x7b\n" ++
  "            int pi = partition(arr, low, high);\n" ++
  "            quickSort(arr, low, pi - 1);\n" ++
  "            quickSort(arr, pi + 1, high);\n" ++
  "        \x7d\n" ++
  "    \x7d\n" ++
  "    \n" ++
  "    private static int partition(int[] arr, int low, int high) \x7b\n" ++
  "        int pivot = arr[high];\n" ++
  "        int i = (low - 1);\n" ++
  "        \n" ++
  "        for (int j = low; j < high; j++) \x7b\n" ++
  "            if (arr[j] <= pivot) \x7b\n" ++
  "                i++;\n" ++
  "                int temp = arr[i];\n" ++
  "                arr[i] = arr[j];\n" ++
  "                arr[j] = temp;\n" ++
  "            \x7d\n" ++
  "        \x7d\n" ++
  "        \n" ++
  "        int temp = arr[i + 1];\n" ++
  "        arr[i + 1] = arr[high];\n" ++
  "        arr[high] = temp;\n" ++
  "        \n" ++
  "        return i + 1;\n" ++
  "    \x7d\n" ++
  "\x7d"

/-! ## Data model

The behaviour of each external child process is supplied by the
environment: its exit code, the stdout and stderr chunks delivered to
the `data` handlers (in arrival order), and its wall-clock running
time in milliseconds (`none` = the process never exits). -/

/-- Description of one child process run, chosen by the environment. -/
structure ProcSpec where
  exitCode : Nat
  stdoutChunks : List String
  stderrChunks : List String
  durationMs : Option Nat
deriving Repr, DecidableEq

/-- The external world for one `executeCode` call: the submission
timestamp used to derive file names, whether the two probed
toolchains are installed (probe exits 0), and the behaviour of each
process the call may spawn (unused fields are ignored). -/
structure Env where
  timestamp : Nat
  javaInstalled : Bool
  gppInstalled : Bool
  javacSpec : ProcSpec
  javaRunSpec : ProcSpec
  cppCompileSpec : ProcSpec
  runSpec : ProcSpec
deriving Repr, DecidableEq

/-- The object `executeCode` resolves with.  `Option String` models a
field being `null`/`undefined` (absent after JSON serialization); the
generic path populates `errors`, the java path the `error` key.  The
`complexity`/`aiFeedback` payload is a pure function of the submitted
source computed by the excluded heuristic collaborator and is not
modelled. -/
structure ExecResult where
  output : Option String
  errors : Option String
  error : Option String
  executionTime : ℚ
  memoryUsage : ℚ
deriving Repr, DecidableEq

/-- How the `executeCode` promise ends: resolves with a result,
rejects with an error message, or never settles (an unguarded `await`
of a process that never exits). -/
inductive Outcome where
  | ok (r : ExecResult)
  | thrown (msg : String)
  | hangs
deriving Repr, DecidableEq

/-- Observable side effects, in program order.  `spawnEv` records the
executable, its argument list, and whether the await of this process
is raced against the 10-second timer; `writeEv` a `writeFile`;
`unlinkEv` a successful `unlink`; `killEv` a `process.kill()`. -/
inductive Ev where
  | spawnEv (cmd : String) (args : List String) (guarded : Bool)
  | writeEv (path : String) (content : String)
  | unlinkEv (path : String)
  | killEv
deriving Repr, DecidableEq

/-- Keep only the `writeEv` events of a trace. -/
def writeEvents : List Ev → List Ev
  | [] => []
  | Ev.writeEv p c :: t => Ev.writeEv p c :: writeEvents t
  | _ :: t => writeEvents t

/-- Keep only the `spawnEv` events of a trace. -/
def spawnEvents : List Ev → List Ev
  | [] => []
  | Ev.spawnEv c a g :: t => Ev.spawnEv c a g :: spawnEvents t
  | _ :: t => spawnEvents t

/-- The temporary directory as `Fs`: an association of absolute path
to file content. -/
abbrev Fs := List (String × String)

/-- `writeFile`: create or overwrite. -/
def fsWrite : Fs → String → String → Fs
  | [], p, c => [(p, c)]
  | e :: t, p, c => if e.1 = p then (p, c) :: t else e :: fsWrite t p c

/-- `fs.access` succeeding: the path exists. -/
def fsHas : Fs → String → Bool
  | [], _ => false
  | e :: t, p => if e.1 = p then true else fsHas t p

/-- `unlink`: remove the path. -/
def fsDel : Fs → String → Fs
  | [], _ => []
  | e :: t, p => if e.1 = p then fsDel t p else e :: fsDel t p

/-- The `await fs.access(p); await unlink(p)` idiom wrapped in a
`try`/`catch`: delete the file and record the unlink only when it
exists. -/
def delIfExists (fs : Fs) (tr : List Ev) (p : String) : Fs × List Ev :=
  if fsHas fs p then (fsDel fs p, tr ++ [Ev.unlinkEv p]) else (fs, tr)

/-- Result of the `try` body of `executeCode`, before the `finally`
block runs (`hangsPre`: an unguarded await never settled, so the
`finally` never runs either). -/
inductive PreOut where
  | okPre (r : ExecResult)
  | thrownPre (msg : String)
  | hangsPre
deriving Repr, DecidableEq

/-- State after the `try` body: its pre-`finally` result, the events
emitted so far (without the probe prefix, see `probeEvs`), the files
on disk, and whether the `process` variable is non-null (so the
`finally` block will call `kill`). -/
structure BodyOut where
  pre : PreOut
  trace : List Ev
  fs : Fs
  alive : Bool
deriving Repr, DecidableEq

/-- `os.tmpdir()`, fixed for the embedding. -/
def tempDir : String := "/tmp"

/-- `join(tmpdir(), fileName)` with `fileName = code_<timestamp>`:
the temp-file path derived from the submission timestamp. -/
def tmpFilePath (env : Env) : String :=
  tempDir ++ "/code_" ++ toString env.timestamp

/-- The 10-second budget (`const timeout = 10000`). -/
def timeoutMs : Nat := 10000

/-- Placeholder content for a compiler-produced artifact (the bytes
are produced by the external toolchain and are opaque to the
server). -/
def compiledContent : String := "[compiled artifact]"

/-- The fixed message thrown when the `java -version` probe fails. -/
def javaMissingMsg : String :=
  "Java is not installed. Please install Java to run Java code."

/-- The fixed message thrown when the `g++ --version` probe fails. -/
def gppMissingMsg : String :=
  "C++ compiler (g++) is not installed. Please install g++ to run C++ code."

/-- The toolchain-probe spawns performed at the top of `executeCode`
(lines 293–322): `java -version` for java, `g++ --version` for cpp,
nothing otherwise. -/
def probeEvs (language : String) : List Ev :=
  if language = "java" then [Ev.spawnEv "java" ["-version"] false]
  else if language = "cpp" then [Ev.spawnEv "g++" ["--version"] false]
  else []

/-- Did the race of the guarded process against the 10-second timer
end with the timer?  A process that never exits always times out; at
an exact tie the timer is modelled as winning. -/
def timedOut (spec : ProcSpec) : Bool :=
  match spec.durationMs with
  | none => true
  | some d => decide (d > timeoutMs)

/-- The shared supervision tail for the javascript/python/cpp run
stage (lines 638–729): accumulate the stdout/stderr chunks, parse the
markers per chunk, race the close event against the 10-second timer,
and on exit code 0 assemble the result (stripping the
performance-metrics block and falling back to the wall clock when no
chunk reported a nonzero time).  `priorMs` is the time already spent
since `startTime` was taken (the cpp compile stage).
`genericResult` is the object the success path resolves with. -/
def genericResult (spec : ProcSpec) (priorMs : Nat) : ExecResult :=
  { output := some (trimStr (stripPerfMetrics (String.join spec.stdoutChunks))),
    errors := if String.join spec.stderrChunks = "" then none
              else some (String.join spec.stderrChunks),
    error := none,
    executionTime :=
      if foldTime spec.stdoutChunks = 0
      then (((priorMs + spec.durationMs.getD 0 : Nat)) : ℚ) / 1000
      else foldTime spec.stdoutChunks,
    memoryUsage := foldMem spec.stdoutChunks }

/-- Race the close event against the timer and classify by the exit
code (see `genericResult` for the success object). -/
def genericRun (spec : ProcSpec) (priorMs : Nat) (tr : List Ev) (fs : Fs) : BodyOut :=
  let errs := String.join spec.stderrChunks
  if timedOut spec then
    -- the timer callback kills the process and rejects
    ⟨.thrownPre "Execution timeout", tr ++ [Ev.killEv], fs, true⟩
  else if spec.exitCode = 0 then
    ⟨.okPre (genericResult spec priorMs), tr, fs, true⟩
  else
    ⟨.thrownPre (if errs = "" then "Process exited with code " ++ toString spec.exitCode
                 else errs), tr, fs, true⟩

/-- The java case (lines 402–569): derive the class name, write the
fixed `javaProgram` under `<ClassName>.java`, compile and run with
plain unraced awaits, and return (not throw) an object whose `error`
key carries any failure; its own inner `finally` deletes
`<ClassName>.java` and `<ClassName>.class`. -/
def javaCase (env : Env) (code : String) (tr0 : List Ev) (fs0 : Fs) : BodyOut :=
  let className := extractClassName code
  let javaFilePath := tempDir ++ "/" ++ className ++ ".java"
  let javaClassPath := tempDir ++ "/" ++ className ++ ".class"
  let prog := javaProgram className
  let fs1 := fsWrite fs0 javaFilePath prog
  let tr1 := tr0 ++ [Ev.writeEv javaFilePath prog, Ev.spawnEv "javac" [javaFilePath] false]
  match env.javacSpec.durationMs with
  | none => ⟨.hangsPre, tr1, fs1, false⟩
  | some _ =>
    if env.javacSpec.exitCode = 0 then
      let fs2 := fsWrite fs1 javaClassPath compiledContent
      let tr2 := tr1 ++ [Ev.spawnEv "java" ["-cp", tempDir, className] false]
      match env.javaRunSpec.durationMs with
      | none => ⟨.hangsPre, tr2, fs2, false⟩
      | some _ =>
        let res :=
          if env.javaRunSpec.exitCode = 0 then
            let outAll := String.join env.javaRunSpec.stdoutChunks
            let ns := foldNs env.javaRunSpec.stdoutChunks
            let clean := trimStr (stripPerfMetrics outAll)
            { output := some (if clean = "" then "No output generated" else clean),
              errors := none, error := none,
              executionTime := (ns : ℚ) / 1000000000,
              memoryUsage := 0 : ExecResult }
          else
            { output := none, errors := none,
              error := some ("Execution failed: " ++ String.join env.javaRunSpec.stderrChunks),
              executionTime := 0, memoryUsage := 0 : ExecResult }
        let d1 := delIfExists fs2 tr2 javaFilePath
        let d2 := delIfExists d1.1 d1.2 javaClassPath
        ⟨.okPre res, d2.2, d2.1, false⟩
    else
      let res : ExecResult :=
        { output := none, errors := none,
          error := some ("Compilation failed: " ++ String.join env.javacSpec.stderrChunks),
          executionTime := 0, memoryUsage := 0 }
      let d1 := delIfExists fs1 tr1 javaFilePath
      let d2 := delIfExists d1.1 d1.2 javaClassPath
      ⟨.okPre res, d2.2, d2.1, false⟩

/-- The `try` body of `executeCode` after the toolchain probes: write
the submitted source to the temp file, then dispatch on the language
tag (the `switch` at line 332).  The returned trace does not include
the probe spawns, which `executeCode` prepends. -/
def execBodyRest (env : Env) (code language _input : String) (filePath : String) : BodyOut :=
  if language = "java" ∧ env.javaInstalled = false then
    ⟨.thrownPre javaMissingMsg, [], [], false⟩
  else if language = "cpp" ∧ env.gppInstalled = false then
    ⟨.thrownPre gppMissingMsg, [], [], false⟩
  else
    let fs0 := fsWrite [] filePath code
    let tr0 := [Ev.writeEv filePath code]
    if language = "javascript" then
      let wc := wrappedCode code
      let fs1 := fsWrite fs0 filePath wc
      let tr1 := tr0 ++ [Ev.writeEv filePath wc, Ev.spawnEv "node" [filePath] true]
      genericRun env.runSpec 0 tr1 fs1
    else if language = "python" then
      let pc := pythonWrapped code
      let fs1 := fsWrite fs0 filePath pc
      let tr1 := tr0 ++ [Ev.writeEv filePath pc, Ev.spawnEv "python" [filePath] true]
      genericRun env.runSpec 0 tr1 fs1
    else if language = "java" then
      javaCase env code tr0 fs0
    else if language = "cpp" then
      let cc := cppWrapped code
      let cppFilePath := filePath ++ ".cpp"
      let fs1 := fsWrite fs0 cppFilePath cc
      let tr1 := tr0 ++ [Ev.writeEv cppFilePath cc,
                         Ev.spawnEv "g++" [cppFilePath, "-o", filePath, "-std=c++11", "-Wall"] false]
      match env.cppCompileSpec.durationMs with
      | none => ⟨.hangsPre, tr1, fs1, false⟩
      | some dC =>
        if env.cppCompileSpec.exitCode = 0 then
          let fs2 := fsWrite fs1 filePath compiledContent
          let tr2 := tr1 ++ [Ev.spawnEv filePath [] true]
          genericRun env.runSpec dC tr2 fs2
        else
          ⟨.thrownPre ("C++ compilation failed: " ++ String.join env.cppCompileSpec.stderrChunks),
           tr1, fs1, false⟩
    else
      ⟨.thrownPre ("Unsupported language: " ++ language), tr0, fs0, false⟩

/-- The `finally` block (lines 733–779): kill the process if the
`process` variable is non-null, then delete the per-language files —
`Main.java`/`Main.class` for java (the literal name `Main`, not the
derived class name), `<filePath>.cpp` for cpp, and the temp file
itself otherwise.  Returns the extra events and the final disk
state. -/
def finallyEvents (language filePath : String) (alive : Bool) (fs : Fs) : List Ev × Fs :=
  let base : List Ev := if alive then [Ev.killEv] else []
  if language = "java" then
    let d1 := delIfExists fs base (tempDir ++ "/Main.java")
    let d2 := delIfExists d1.1 d1.2 (tempDir ++ "/Main.class")
    (d2.2, d2.1)
  else if language = "cpp" then
    let d1 := delIfExists fs base (filePath ++ ".cpp")
    (d1.2, d1.1)
  else
    let d1 := delIfExists fs base filePath
    (d1.2, d1.1)

/-- Everything `executeCode` leaves behind: how its promise settled,
the ordered side-effect trace, and the files still on disk. -/
structure ExecOut where
  outcome : Outcome
  trace : List Ev
  fs : Fs
deriving Repr, DecidableEq

/-- The embedding of `executeCode(code, language, input)`: toolchain
probes, temp-file materialization, the language `switch`, the
supervised run, and the `finally` cleanup (which is skipped only when
an unguarded await never settles, since then the `try` body never
finishes). -/
def executeCode (env : Env) (code language input : String) : ExecOut :=
  let filePath := tmpFilePath env
  let r := execBodyRest env code language input filePath
  match r.pre with
  | .hangsPre => ⟨.hangs, probeEvs language ++ r.trace, r.fs⟩
  | .okPre res =>
    let fin := finallyEvents language filePath r.alive r.fs
    ⟨.ok res, probeEvs language ++ (r.trace ++ fin.1), fin.2⟩
  | .thrownPre m =>
    let fin := finallyEvents language filePath r.alive r.fs
    ⟨.thrown m, probeEvs language ++ (r.trace ++ fin.1), fin.2⟩

/-- The JSON body the `/api/execute` route sends (the subset of
fields the core controls). -/
structure ApiResponse where
  status : Nat
  output : Option String
  errors : Option String
  error : Option String
  executionTime : ℚ
  memoryUsage : ℚ
deriving Repr, DecidableEq

/-- The fixed body returned when `code` or `language` is falsy. -/
def validationResponse : ApiResponse :=
  ⟨400, some "", some "Code and language are required", none, 0, 0⟩

/-- The `/api/execute` handler: validate (`!code || !language`, so a
missing field and an empty string behave alike), call `executeCode`,
and convert a rejection into a 500 body.  The response is `none` when
`executeCode` never settles (the request then hangs). -/
def apiExecute (env : Env) (code language input : Option String) :
    Option ApiResponse × List Ev × Fs :=
  if code.getD "" = "" ∨ language.getD "" = "" then
    (some validationResponse, [], [])
  else
    let eo := executeCode env (code.getD "") (language.getD "") (input.getD "")
    match eo.outcome with
    | .ok r => (some ⟨200, r.output, r.errors, r.error, r.executionTime, r.memoryUsage⟩,
                eo.trace, eo.fs)
    | .thrown m => (some ⟨500, some "", some m, none, 0, 0⟩, eo.trace, eo.fs)
    | .hangs => (none, eo.trace, eo.fs)

/-- The `/api/abort` handler (lines 843–846): its body is exactly
`res.json({ success: true })` — it reads the request, touches no
state (`activeProcesses` or anything else, represented by the
polymorphic `st`), spawns and kills nothing, and acknowledges
unconditionally.  Returns the `success` flag, the state after the
handler, and the emitted events. -/
def apiAbort {α : Type} (st : α) : Bool × α × List Ev :=
  (true, st, [])

/-! ## Characterization lemmas

Unfoldings of `executeCode` for each language and outcome shape,
shared by the claim theorems below. -/

theorem genericRun_ok (spec : ProcSpec) (p : Nat) (tr : List Ev) (fs : Fs) (d : Nat)
    (hd : spec.durationMs = some d) (hle : d ≤ timeoutMs) (hc : spec.exitCode = 0) :
    genericRun spec p tr fs = ⟨.okPre (genericResult spec p), tr, fs, true⟩ := by
  have h1 : timedOut spec = false := by
    simp [timedOut, hd]; omega
  simp [genericRun, h1, hc]

theorem genericRun_timeout (spec : ProcSpec) (p : Nat) (tr : List Ev) (fs : Fs)
    (h : timedOut spec = true) :
    genericRun spec p tr fs = ⟨.thrownPre "Execution timeout", tr ++ [Ev.killEv], fs, true⟩ := by
  simp [genericRun, h]

theorem genericRun_fail (spec : ProcSpec) (p : Nat) (tr : List Ev) (fs : Fs) (d : Nat)
    (hd : spec.durationMs = some d) (hle : d ≤ timeoutMs) (hc : spec.exitCode ≠ 0) :
    genericRun spec p tr fs =
      ⟨.thrownPre (if String.join spec.stderrChunks = ""
                   then "Process exited with code " ++ toString spec.exitCode
                   else String.join spec.stderrChunks), tr, fs, true⟩ := by
  have h1 : timedOut spec = false := by
    simp [timedOut, hd]; omega
  simp [genericRun, h1, hc]

theorem execBodyRest_js (env : Env) (code input fp : String) :
    execBodyRest env code "javascript" input fp =
      genericRun env.runSpec 0
        [Ev.writeEv fp code, Ev.writeEv fp (wrappedCode code), Ev.spawnEv "node" [fp] true]
        [(fp, wrappedCode code)] := by
  simp [execBodyRest, fsWrite]

theorem execBodyRest_py (env : Env) (code input fp : String) :
    execBodyRest env code "python" input fp =
      genericRun env.runSpec 0
        [Ev.writeEv fp code, Ev.writeEv fp (pythonWrapped code), Ev.spawnEv "python" [fp] true]
        [(fp, pythonWrapped code)] := by
  simp [execBodyRest, fsWrite]

theorem append_cpp_ne (s : String) : ¬ (s = s ++ ".cpp") := by
  intro h
  have := congrArg String.length h
  simp [String.length_append] at this
  exact absurd this (by decide)

theorem execBodyRest_cpp (env : Env) (code input fp : String) (dC : Nat)
    (hg : env.gppInstalled = true)
    (hdc : env.cppCompileSpec.durationMs = some dC) (hcc : env.cppCompileSpec.exitCode = 0) :
    execBodyRest env code "cpp" input fp =
      genericRun env.runSpec dC
        [Ev.writeEv fp code, Ev.writeEv (fp ++ ".cpp") (cppWrapped code),
         Ev.spawnEv "g++" [fp ++ ".cpp", "-o", fp, "-std=c++11", "-Wall"] false,
         Ev.spawnEv fp [] true]
        [(fp, compiledContent), (fp ++ ".cpp", cppWrapped code)] := by
  simp [execBodyRest, hg, hdc, hcc, fsWrite, append_cpp_ne fp]

/-- The `finally` cleanup for the scripted languages, on the one-file
disk state the body leaves behind. -/
theorem finallyEvents_script (lang fp : String) (alive : Bool) (c : String)
    (h1 : lang ≠ "java") (h2 : lang ≠ "cpp") :
    finallyEvents lang fp alive [(fp, c)] =
      ((if alive then [Ev.killEv] else []) ++ [Ev.unlinkEv fp], []) := by
  simp [finallyEvents, h1, h2, delIfExists, fsHas, fsDel]

/-- The `finally` cleanup for cpp: only `<filePath>.cpp` is removed;
the compiled binary at `filePath` survives. -/
theorem finallyEvents_cpp (fp : String) (alive : Bool) (b c : String) :
    finallyEvents "cpp" fp alive [(fp, b), (fp ++ ".cpp", c)] =
      ((if alive then [Ev.killEv] else []) ++ [Ev.unlinkEv (fp ++ ".cpp")], [(fp, b)]) := by
  simp [finallyEvents, delIfExists, fsHas, fsDel, append_cpp_ne fp]

theorem executeCode_js_ok (env : Env) (code input : String) (d : Nat)
    (hd : env.runSpec.durationMs = some d) (hle : d ≤ timeoutMs) (hc : env.runSpec.exitCode = 0) :
    executeCode env code "javascript" input =
      ⟨.ok (genericResult env.runSpec 0),
       [Ev.writeEv (tmpFilePath env) code, Ev.writeEv (tmpFilePath env) (wrappedCode code),
        Ev.spawnEv "node" [tmpFilePath env] true, Ev.killEv, Ev.unlinkEv (tmpFilePath env)],
       []⟩ := by
  have hb := execBodyRest_js env code input (tmpFilePath env)
  rw [genericRun_ok env.runSpec 0 _ _ d hd hle hc] at hb
  simp [tmpFilePath, tempDir] at hb
  simp [executeCode, hb, probeEvs, tmpFilePath, tempDir,
        finallyEvents, delIfExists, fsHas, fsDel]

theorem executeCode_js_timeout (env : Env) (code input : String)
    (h : timedOut env.runSpec = true) :
    executeCode env code "javascript" input =
      ⟨.thrown "Execution timeout",
       [Ev.writeEv (tmpFilePath env) code, Ev.writeEv (tmpFilePath env) (wrappedCode code),
        Ev.spawnEv "node" [tmpFilePath env] true, Ev.killEv, Ev.killEv,
        Ev.unlinkEv (tmpFilePath env)],
       []⟩ := by
  have hb := execBodyRest_js env code input (tmpFilePath env)
  rw [genericRun_timeout env.runSpec 0 _ _ h] at hb
  simp [tmpFilePath, tempDir] at hb
  simp [executeCode, hb, probeEvs, tmpFilePath, tempDir,
        finallyEvents, delIfExists, fsHas, fsDel]

theorem executeCode_js_fail (env : Env) (code input : String) (d : Nat)
    (hd : env.runSpec.durationMs = some d) (hle : d ≤ timeoutMs) (hc : env.runSpec.exitCode ≠ 0) :
    executeCode env code "javascript" input =
      ⟨.thrown (if String.join env.runSpec.stderrChunks = ""
                then "Process exited with code " ++ toString env.runSpec.exitCode
                else String.join env.runSpec.stderrChunks),
       [Ev.writeEv (tmpFilePath env) code, Ev.writeEv (tmpFilePath env) (wrappedCode code),
        Ev.spawnEv "node" [tmpFilePath env] true, Ev.killEv, Ev.unlinkEv (tmpFilePath env)],
       []⟩ := by
  have hb := execBodyRest_js env code input (tmpFilePath env)
  rw [genericRun_fail env.runSpec 0 _ _ d hd hle hc] at hb
  simp [tmpFilePath, tempDir] at hb
  simp [executeCode, hb, probeEvs, tmpFilePath, tempDir,
        finallyEvents, delIfExists, fsHas, fsDel]

theorem executeCode_py_ok (env : Env) (code input : String) (d : Nat)
    (hd : env.runSpec.durationMs = some d) (hle : d ≤ timeoutMs) (hc : env.runSpec.exitCode = 0) :
    executeCode env code "python" input =
      ⟨.ok (genericResult env.runSpec 0),
       [Ev.writeEv (tmpFilePath env) code, Ev.writeEv (tmpFilePath env) (pythonWrapped code),
        Ev.spawnEv "python" [tmpFilePath env] true, Ev.killEv, Ev.unlinkEv (tmpFilePath env)],
       []⟩ := by
  have hb := execBodyRest_py env code input (tmpFilePath env)
  rw [genericRun_ok env.runSpec 0 _ _ d hd hle hc] at hb
  simp [tmpFilePath, tempDir] at hb
  simp [executeCode, hb, probeEvs, tmpFilePath, tempDir,
        finallyEvents, delIfExists, fsHas, fsDel]

theorem executeCode_py_timeout (env : Env) (code input : String)
    (h : timedOut env.runSpec = true) :
    executeCode env code "python" input =
      ⟨.thrown "Execution timeout",
       [Ev.writeEv (tmpFilePath env) code, Ev.writeEv (tmpFilePath env) (pythonWrapped code),
        Ev.spawnEv "python" [tmpFilePath env] true, Ev.killEv, Ev.killEv,
        Ev.unlinkEv (tmpFilePath env)],
       []⟩ := by
  have hb := execBodyRest_py env code input (tmpFilePath env)
  rw [genericRun_timeout env.runSpec 0 _ _ h] at hb
  simp [tmpFilePath, tempDir] at hb
  simp [executeCode, hb, probeEvs, tmpFilePath, tempDir,
        finallyEvents, delIfExists, fsHas, fsDel]

theorem executeCode_py_fail (env : Env) (code input : String) (d : Nat)
    (hd : env.runSpec.durationMs = some d) (hle : d ≤ timeoutMs) (hc : env.runSpec.exitCode ≠ 0) :
    executeCode env code "python" input =
      ⟨.thrown (if String.join env.runSpec.stderrChunks = ""
                then "Process exited with code " ++ toString env.runSpec.exitCode
                else String.join env.runSpec.stderrChunks),
       [Ev.writeEv (tmpFilePath env) code, Ev.writeEv (tmpFilePath env) (pythonWrapped code),
        Ev.spawnEv "python" [tmpFilePath env] true, Ev.killEv, Ev.unlinkEv (tmpFilePath env)],
       []⟩ := by
  have hb := execBodyRest_py env code input (tmpFilePath env)
  rw [genericRun_fail env.runSpec 0 _ _ d hd hle hc] at hb
  simp [tmpFilePath, tempDir] at hb
  simp [executeCode, hb, probeEvs, tmpFilePath, tempDir,
        finallyEvents, delIfExists, fsHas, fsDel]

theorem executeCode_cpp_ok (env : Env) (code input : String) (dC d : Nat)
    (hg : env.gppInstalled = true)
    (hdc : env.cppCompileSpec.durationMs = some dC) (hcc : env.cppCompileSpec.exitCode = 0)
    (hd : env.runSpec.durationMs = some d) (hle : d ≤ timeoutMs) (hc : env.runSpec.exitCode = 0) :
    executeCode env code "cpp" input =
      ⟨.ok (genericResult env.runSpec dC),
       [Ev.spawnEv "g++" ["--version"] false,
        Ev.writeEv (tmpFilePath env) code,
        Ev.writeEv (tmpFilePath env ++ ".cpp") (cppWrapped code),
        Ev.spawnEv "g++" [tmpFilePath env ++ ".cpp", "-o", tmpFilePath env,
                          "-std=c++11", "-Wall"] false,
        Ev.spawnEv (tmpFilePath env) [] true, Ev.killEv,
        Ev.unlinkEv (tmpFilePath env ++ ".cpp")],
       [(tmpFilePath env, compiledContent)]⟩ := by
  have hb := execBodyRest_cpp env code input (tmpFilePath env) dC hg hdc hcc
  rw [genericRun_ok env.runSpec dC _ _ d hd hle hc] at hb
  simp [tmpFilePath, tempDir] at hb
  simp [executeCode, hb, probeEvs, tmpFilePath, tempDir,
        finallyEvents, delIfExists, fsHas, fsDel,
        append_cpp_ne ("/tmp/code_" ++ toString env.timestamp)]

theorem executeCode_cpp_timeout (env : Env) (code input : String) (dC : Nat)
    (hg : env.gppInstalled = true)
    (hdc : env.cppCompileSpec.durationMs = some dC) (hcc : env.cppCompileSpec.exitCode = 0)
    (h : timedOut env.runSpec = true) :
    executeCode env code "cpp" input =
      ⟨.thrown "Execution timeout",
       [Ev.spawnEv "g++" ["--version"] false,
        Ev.writeEv (tmpFilePath env) code,
        Ev.writeEv (tmpFilePath env ++ ".cpp") (cppWrapped code),
        Ev.spawnEv "g++" [tmpFilePath env ++ ".cpp", "-o", tmpFilePath env,
                          "-std=c++11", "-Wall"] false,
        Ev.spawnEv (tmpFilePath env) [] true, Ev.killEv, Ev.killEv,
        Ev.unlinkEv (tmpFilePath env ++ ".cpp")],
       [(tmpFilePath env, compiledContent)]⟩ := by
  have hb := execBodyRest_cpp env code input (tmpFilePath env) dC hg hdc hcc
  rw [genericRun_timeout env.runSpec dC _ _ h] at hb
  simp [tmpFilePath, tempDir] at hb
  simp [executeCode, hb, probeEvs, tmpFilePath, tempDir,
        finallyEvents, delIfExists, fsHas, fsDel,
        append_cpp_ne ("/tmp/code_" ++ toString env.timestamp)]

theorem executeCode_cpp_fail (env : Env) (code input : String) (dC d : Nat)
    (hg : env.gppInstalled = true)
    (hdc : env.cppCompileSpec.durationMs = some dC) (hcc : env.cppCompileSpec.exitCode = 0)
    (hd : env.runSpec.durationMs = some d) (hle : d ≤ timeoutMs) (hc : env.runSpec.exitCode ≠ 0) :
    executeCode env code "cpp" input =
      ⟨.thrown (if String.join env.runSpec.stderrChunks = ""
                then "Process exited with code " ++ toString env.runSpec.exitCode
                else String.join env.runSpec.stderrChunks),
       [Ev.spawnEv "g++" ["--version"] false,
        Ev.writeEv (tmpFilePath env) code,
        Ev.writeEv (tmpFilePath env ++ ".cpp") (cppWrapped code),
        Ev.spawnEv "g++" [tmpFilePath env ++ ".cpp", "-o", tmpFilePath env,
                          "-std=c++11", "-Wall"] false,
        Ev.spawnEv (tmpFilePath env) [] true, Ev.killEv,
        Ev.unlinkEv (tmpFilePath env ++ ".cpp")],
       [(tmpFilePath env, compiledContent)]⟩ := by
  have hb := execBodyRest_cpp env code input (tmpFilePath env) dC hg hdc hcc
  rw [genericRun_fail env.runSpec dC _ _ d hd hle hc] at hb
  simp [tmpFilePath, tempDir] at hb
  simp [executeCode, hb, probeEvs, tmpFilePath, tempDir,
        finallyEvents, delIfExists, fsHas, fsDel,
        append_cpp_ne ("/tmp/code_" ++ toString env.timestamp)]

/-- A java job whose compile succeeds but whose run process never
exits: the unraced `await` never settles, so `executeCode` hangs. -/
theorem executeCode_java_hangs (env : Env) (code input : String) (dj : Nat)
    (hj : env.javaInstalled = true)
    (hdj : env.javacSpec.durationMs = some dj) (hcj : env.javacSpec.exitCode = 0)
    (hrun : env.javaRunSpec.durationMs = none) :
    (executeCode env code "java" input).outcome = .hangs := by
  simp [executeCode, execBodyRest, hj, javaCase, hdj, hcj, hrun]

/-- Whatever happens afterwards, the trace of an `executeCode` call
starts with the toolchain-probe spawns of its language. -/
theorem executeCode_trace_probe (env : Env) (code language input : String) :
    ∃ t, (executeCode env code language input).trace = probeEvs language ++ t := by
  rcases hp : (execBodyRest env code language input (tmpFilePath env)).pre with r | m <;>
    simp [executeCode, hp]

/-- The `switch`'s `default` branch for an unsupported language tag:
the temp file has been written, nothing has been spawned. -/
theorem execBodyRest_unsupported (env : Env) (code input fp lang : String)
    (h1 : lang ≠ "javascript") (h2 : lang ≠ "python")
    (h3 : lang ≠ "java") (h4 : lang ≠ "cpp") :
    execBodyRest env code lang input fp =
      ⟨.thrownPre ("Unsupported language: " ++ lang),
       [Ev.writeEv fp code], [(fp, code)], false⟩ := by
  simp [execBodyRest, h1, h2, h3, h4, fsWrite]

/-- If no stdout chunk matches the elapsed-time marker regex (with a
parseable payload), the accumulated `executionTime` stays 0. -/
theorem foldTime_of_no_marker (chunks : List String)
    (h : ∀ ch ∈ chunks, timeMarkerScanStr ch = none) : foldTime chunks = 0 := by
  induction chunks with
  | nil => rfl
  | cons a t ih =>
    have ha := h a (by simp)
    have ht := ih (fun ch hm => h ch (by simp [hm]))
    unfold foldTime at ht ⊢
    simp only [List.foldl_cons]
    cases hs : scanMarker isDigitOrDot "Execution Time: ".toList " s".toList a.toList with
    | none => simpa [hs] using ht
    | some run =>
      have hp : parseFloatQ run = none := by
        unfold timeMarkerScanStr at ha
        rw [hs] at ha
        simpa using ha
      simpa [hs, hp] using ht

/-- If no stdout chunk matches the memory marker regex, the
accumulated `memoryUsage` stays 0. -/
theorem foldMem_of_no_marker (chunks : List String)
    (h : ∀ ch ∈ chunks, memMarkerScanStr ch = none) : foldMem chunks = 0 := by
  induction chunks with
  | nil => rfl
  | cons a t ih =>
    have ha := h a (by simp)
    have ht := ih (fun ch hm => h ch (by simp [hm]))
    unfold foldMem at ht ⊢
    simp only [List.foldl_cons]
    cases hs : scanMarker isDigitOrDot "Memory Usage: ".toList " MB".toList a.toList with
    | none => simpa [hs] using ht
    | some run =>
      have hp : parseFloatQ run = none := by
        unfold memMarkerScanStr at ha
        rw [hs] at ha
        simpa using ha
      simpa [hs, hp] using ht

/-- A java or cpp call whose toolchain probe fails: the fixed message
is thrown, and neither a write event nor a file on disk exists. -/
theorem executeCode_probe_fail_java (env : Env) (code input : String)
    (h : env.javaInstalled = false) :
    executeCode env code "java" input =
      ⟨.thrown javaMissingMsg, [Ev.spawnEv "java" ["-version"] false], []⟩ := by
  have hb : execBodyRest env code "java" input (tmpFilePath env) =
      ⟨.thrownPre javaMissingMsg, [], [], false⟩ := by
    simp [execBodyRest, h]
  simp [executeCode, hb, probeEvs, finallyEvents, delIfExists, fsHas, fsDel]

/-- cpp analogue of `executeCode_probe_fail_java`. -/
theorem executeCode_probe_fail_cpp (env : Env) (code input : String)
    (h : env.gppInstalled = false) :
    executeCode env code "cpp" input =
      ⟨.thrown gppMissingMsg, [Ev.spawnEv "g++" ["--version"] false], []⟩ := by
  have hb : execBodyRest env code "cpp" input (tmpFilePath env) =
      ⟨.thrownPre gppMissingMsg, [], [], false⟩ := by
    simp [execBodyRest, h]
  simp [executeCode, hb, probeEvs, finallyEvents, delIfExists, fsHas, fsDel]

/-- A rejection of `executeCode` surfaces as a 500 body with the
message in `errors` and empty output. -/
theorem apiExecute_of_thrown (env : Env) (code lang input msg : String)
    (hcode : code ≠ "") (hlang : lang ≠ "")
    (h : (executeCode env code lang input).outcome = .thrown msg) :
    (apiExecute env (some code) (some lang) (some input)).1 =
      some ⟨500, some "", some msg, none, 0, 0⟩ := by
  simp [apiExecute, hcode, hlang, h]

/-- A never-settling `executeCode` leaves the route without any
response. -/
theorem apiExecute_of_hangs (env : Env) (code lang input : String)
    (hcode : code ≠ "") (hlang : lang ≠ "")
    (h : (executeCode env code lang input).outcome = .hangs) :
    (apiExecute env (some code) (some lang) (some input)).1 = none := by
  simp [apiExecute, hcode, hlang, h]

/-- Success/failure classification of the generic supervised path, as
a function of the exit code alone. -/
theorem classification_core (spec : ProcSpec) (eo : ExecOut) (P : Nat)
    (hok : spec.exitCode = 0 → eo.outcome = .ok (genericResult spec P))
    (hfail : spec.exitCode ≠ 0 →
       eo.outcome = .thrown (if String.join spec.stderrChunks = ""
                             then "Process exited with code " ++ toString spec.exitCode
                             else String.join spec.stderrChunks)) :
    ((∃ r, eo.outcome = .ok r) ↔ spec.exitCode = 0) ∧
    (spec.exitCode = 0 → ∃ r, eo.outcome = .ok r ∧
        r.errors = (if String.join spec.stderrChunks = "" then none
                    else some (String.join spec.stderrChunks))) ∧
    (spec.exitCode ≠ 0 →
       eo.outcome = .thrown (if String.join spec.stderrChunks = ""
                             then "Process exited with code " ++ toString spec.exitCode
                             else String.join spec.stderrChunks)) := by
  by_cases hc : spec.exitCode = 0
  · refine ⟨⟨fun _ => hc, fun _ => ⟨_, hok hc⟩⟩, fun _ => ⟨_, hok hc, ?_⟩, fun hn => absurd hc hn⟩
    simp [genericResult]
  · refine ⟨⟨fun hr => ?_, fun h0 => absurd h0 hc⟩, fun h0 => absurd h0 hc, fun _ => hfail hc⟩
    obtain ⟨r, hr⟩ := hr
    rw [hfail hc] at hr
    cases hr

/-- `delIfExists` only ever appends to the event list. -/
theorem delIfExists_trace_mono (fs : Fs) (tr : List Ev) (p : String) (e : Ev)
    (h : e ∈ tr) : e ∈ (delIfExists fs tr p).2 := by
  unfold delIfExists
  split <;> simp [h]

/-- Whatever the compile and run processes do, the java case records
the write of `<ClassName>.java` with the fixed `javaProgram` content
(the only data taken from the submission being the class name). -/
theorem javaCase_trace_write (env : Env) (code : String) (tr0 : List Ev) (fs0 : Fs) :
    Ev.writeEv (tempDir ++ "/" ++ extractClassName code ++ ".java")
      (javaProgram (extractClassName code)) ∈ (javaCase env code tr0 fs0).trace := by
  unfold javaCase
  rcases hdj : env.javacSpec.durationMs with _ | dj
  · simp [hdj]
  · by_cases hcj : env.javacSpec.exitCode = 0
    · rcases hdr : env.javaRunSpec.durationMs with _ | dr
      · simp only [hdj, hcj, hdr, if_pos]
        simp
      · simp only [hdj, hcj, hdr, if_pos]
        exact delIfExists_trace_mono _ _ _ _ (delIfExists_trace_mono _ _ _ _ (by simp))
    · simp only [hdj, if_neg hcj]
      exact delIfExists_trace_mono _ _ _ _ (delIfExists_trace_mono _ _ _ _ (by simp))

/-- Lifting `javaCase_trace_write` through `executeCode`: for every
java job on a machine with the toolchain, the trace contains the
write of the fixed program under the derived name. -/
theorem executeCode_java_writes_program (env : Env) (code input : String)
    (hj : env.javaInstalled = true) :
    Ev.writeEv (tempDir ++ "/" ++ extractClassName code ++ ".java")
      (javaProgram (extractClassName code)) ∈ (executeCode env code "java" input).trace := by
  have hb : execBodyRest env code "java" input (tmpFilePath env) =
      javaCase env code [Ev.writeEv (tmpFilePath env) code] [(tmpFilePath env, code)] := by
    simp [execBodyRest, hj, fsWrite]
  have hmem := javaCase_trace_write env code
    [Ev.writeEv (tmpFilePath env) code] [(tmpFilePath env, code)]
  rcases hp : (javaCase env code [Ev.writeEv (tmpFilePath env) code]
      [(tmpFilePath env, code)]).pre with r | m <;>
    simp [executeCode, hb, hp, List.mem_append, hmem]

/-! ## Concrete environments used by the claim theorems -/

/-- A process that exits immediately with code 0 and no output. -/
def zeroSpec : ProcSpec := ⟨0, [], [], some 0⟩

/-- Toolchains installed, `javac` and `java` both succeed, the run
printing one stdout chunk. -/
def javaEnvOK : Env :=
  ⟨3, true, true, ⟨0, [], [], some 100⟩, ⟨0, ["x\n"], [], some 200⟩, zeroSpec, zeroSpec⟩

/-- A successful cpp compile-and-run job. -/
def cppEnvOK : Env :=
  ⟨7, true, true, zeroSpec, zeroSpec, ⟨0, [], [], some 100⟩, ⟨0, ["5"], [], some 50⟩⟩

/-- A javascript run that exits 0 in 100 ms but writes to stderr. -/
def jsStderrEnv : Env :=
  ⟨1, true, true, zeroSpec, zeroSpec, zeroSpec, ⟨0, ["ok\n"], ["warning: x\n"], some 100⟩⟩

/-- A java job whose run process never exits. -/
def javaHangEnv : Env :=
  ⟨5, true, true, ⟨0, [], [], some 100⟩, ⟨0, [], [], none⟩, zeroSpec, zeroSpec⟩

/-- A cpp job whose compile takes 60 s (six times the deadline) and
whose run then succeeds quickly. -/
def cppSlowCompileEnv : Env :=
  ⟨6, true, true, zeroSpec, zeroSpec, ⟨0, [], [], some 60000⟩, ⟨0, ["hi\n"], [], some 100⟩⟩

/-- A javascript run whose performance-marker block arrives split
across two stdout chunks, cutting the time-marker line in half. -/
def splitMarkerEnv : Env :=
  ⟨2, true, true, zeroSpec, zeroSpec, zeroSpec,
   ⟨0, ["Performance Metrics:\nExecution Time: 1", ".5 s\nMemory Usage: 2", ".00 MB\n"],
    [], some 3000⟩⟩

/-- Neither toolchain installed. -/
def noToolchainEnv : Env := ⟨0, false, false, zeroSpec, zeroSpec, zeroSpec, zeroSpec⟩

/-- A benign environment for witnesses that never reach a process. -/
def witnessEnv : Env := ⟨4, true, true, zeroSpec, zeroSpec, zeroSpec, zeroSpec⟩

/-- A trivial java source that prints the literal 5. -/
def javaLiteralSrc : String :=
  "public class Main \x7b public static void main(String[] args) \x7b System.out.println(5); \x7d \x7d"

/-! ## Claim theorems -/

/-- Claim C1 (code bug): the claim says every supported language runs
the user's verbatim program (so a print-literal program yields that
literal), the wrapper changing nothing but the two marker lines.  The
java stage refutes this: the file it materializes is the fixed
quicksort-demo `javaProgram`, which does not contain the submitted
print statement, and two different submissions with the same class
name produce the identical file. -/
theorem c1_java_stage_discards_user_source :
    extractClassName javaLiteralSrc = "Main" ∧
    Ev.writeEv "/tmp/Main.java" (javaProgram "Main") ∈
      (executeCode javaEnvOK javaLiteralSrc "java" "").trace ∧
    containsSub "System.out.println(5)" javaLiteralSrc = true ∧
    containsSub "System.out.println(5)" (javaProgram "Main") = false ∧
    Ev.writeEv "/tmp/Main.java" (javaProgram "Main") ∈
      (executeCode javaEnvOK
        "public class Main \x7b public static void main(String[] args) \x7b System.out.println(42); \x7d \x7d"
        "java" "").trace := by
  have h1 : extractClassName javaLiteralSrc = "Main" := by decide
  have h2 : extractClassName
      "public class Main \x7b public static void main(String[] args) \x7b System.out.println(42); \x7d \x7d"
      = "Main" := by decide
  have hm1 := executeCode_java_writes_program javaEnvOK javaLiteralSrc "" rfl
  have hm2 := executeCode_java_writes_program javaEnvOK
    "public class Main \x7b public static void main(String[] args) \x7b System.out.println(42); \x7d \x7d"
    "" rfl
  rw [h1] at hm1
  rw [h2] at hm2
  refine ⟨h1, by simpa [tempDir] using hm1, by decide, ?_, by simpa [tempDir] using hm2⟩
  set_option maxRecDepth 40000 in decide

/-- Claim C2 (code bug): cleanup is claimed to leave no derived
artifact on disk on any exit path.  After a successful cpp job the
compiled binary at the temp path survives (only `<path>.cpp` is
deleted), and after a successful java job the initially written temp
source file survives (the java branch of the `finally` block deletes
only `Main.java`/`Main.class`). -/
theorem c2_cleanup_leaks_artifacts :
    (executeCode cppEnvOK "int main() \x7b return 0; \x7d" "cpp" "").fs =
      [("/tmp/code_7", compiledContent)] ∧
    (executeCode javaEnvOK javaLiteralSrc "java" "").fs =
      [("/tmp/code_3", javaLiteralSrc)] := by
  decide

/-- Claim C3 (counterexample): a javascript run that exits 0 while
having written to stderr produces a 200 response whose `errors` field
carries the stderr text — not an absent `errors` as claimed. -/
theorem c3_stderr_reported_on_success :
    jsStderrEnv.runSpec.exitCode = 0 ∧
    (apiExecute jsStderrEnv (some "console.log(1)") (some "javascript") (some "")).1 =
      some ⟨200, some "ok", some "warning: x\n", none, 1 / 10, 0⟩ := by
  refine ⟨rfl, ?_⟩
  have he := executeCode_js_ok jsStderrEnv "console.log(1)" "" 100 rfl (by decide) rfl
  have hout : trimStr (stripPerfMetrics (String.join jsStderrEnv.runSpec.stdoutChunks)) = "ok" := by
    decide
  have ht : foldTime jsStderrEnv.runSpec.stdoutChunks = 0 := by decide
  have hm : foldMem jsStderrEnv.runSpec.stdoutChunks = 0 := by decide
  have herr : String.join jsStderrEnv.runSpec.stderrChunks = "warning: x\n" := by decide
  have hdur : jsStderrEnv.runSpec.durationMs = some 100 := rfl
  simp [apiExecute, he, genericResult, hout, ht, hm, herr, hdur]
  norm_num

/-- Claim C3 (amended): on the generic supervised path (javascript,
python, and cpp with a finite successful compile), for a process that
completes within the deadline, success versus failure is classified
by the exit code alone; on exit 0 the `errors` field carries the
concatenated stderr whenever it is nonempty and is absent only when
stderr is empty; on non-zero exit `executeCode` rejects with the
captured stderr (or a synthesized `Process exited with code N`), and
the route returns that message with empty output. -/
theorem c3_amended_exit_code_classification (env : Env) (code input lang : String) (d : Nat)
    (hlang : lang = "javascript" ∨ lang = "python" ∨
       (lang = "cpp" ∧ env.gppInstalled = true ∧ env.cppCompileSpec.exitCode = 0 ∧
        ∃ dC, env.cppCompileSpec.durationMs = some dC))
    (hd : env.runSpec.durationMs = some d) (hle : d ≤ timeoutMs) :
    ((∃ r, (executeCode env code lang input).outcome = .ok r) ↔ env.runSpec.exitCode = 0) ∧
    (env.runSpec.exitCode = 0 →
       ∃ r, (executeCode env code lang input).outcome = .ok r ∧
         r.errors = (if String.join env.runSpec.stderrChunks = "" then none
                     else some (String.join env.runSpec.stderrChunks))) ∧
    (env.runSpec.exitCode ≠ 0 →
       (executeCode env code lang input).outcome =
         .thrown (if String.join env.runSpec.stderrChunks = ""
                  then "Process exited with code " ++ toString env.runSpec.exitCode
                  else String.join env.runSpec.stderrChunks)) ∧
    (env.runSpec.exitCode ≠ 0 → code ≠ "" →
       (apiExecute env (some code) (some lang) (some input)).1 =
         some ⟨500, some "",
               some (if String.join env.runSpec.stderrChunks = ""
                     then "Process exited with code " ++ toString env.runSpec.exitCode
                     else String.join env.runSpec.stderrChunks), none, 0, 0⟩) := by
  rcases hlang with h | h | ⟨h, hg, hcc, dC, hdc⟩ <;> subst h
  · have core := classification_core env.runSpec (executeCode env code "javascript" input) 0
      (fun hc => by rw [executeCode_js_ok env code input d hd hle hc])
      (fun hc => by rw [executeCode_js_fail env code input d hd hle hc])
    exact ⟨core.1, core.2.1, core.2.2, fun hc hcode =>
      apiExecute_of_thrown env code "javascript" input _ hcode (by decide) (core.2.2 hc)⟩
  · have core := classification_core env.runSpec (executeCode env code "python" input) 0
      (fun hc => by rw [executeCode_py_ok env code input d hd hle hc])
      (fun hc => by rw [executeCode_py_fail env code input d hd hle hc])
    exact ⟨core.1, core.2.1, core.2.2, fun hc hcode =>
      apiExecute_of_thrown env code "python" input _ hcode (by decide) (core.2.2 hc)⟩
  · have core := classification_core env.runSpec (executeCode env code "cpp" input) dC
      (fun hc => by rw [executeCode_cpp_ok env code input dC d hg hdc hcc hd hle hc])
      (fun hc => by rw [executeCode_cpp_fail env code input dC d hg hdc hcc hd hle hc])
    exact ⟨core.1, core.2.1, core.2.2, fun hc hcode =>
      apiExecute_of_thrown env code "cpp" input _ hcode (by decide) (core.2.2 hc)⟩

/-- Witness for the amended C3 theorem at a concrete environment. -/
theorem c3_amended_witness :
    ((∃ r, (executeCode jsStderrEnv "console.log(1)" "javascript" "").outcome = .ok r) ↔
        jsStderrEnv.runSpec.exitCode = 0) ∧
    (jsStderrEnv.runSpec.exitCode = 0 →
       ∃ r, (executeCode jsStderrEnv "console.log(1)" "javascript" "").outcome = .ok r ∧
         r.errors = (if String.join jsStderrEnv.runSpec.stderrChunks = "" then none
                     else some (String.join jsStderrEnv.runSpec.stderrChunks))) := by
  have h := c3_amended_exit_code_classification jsStderrEnv "console.log(1)" "" "javascript" 100
    (Or.inl rfl) (by decide) (by decide)
  exact ⟨h.1, h.2.1⟩

/-- A javascript run that never exits. -/
def jsHangEnv : Env := ⟨8, true, true, zeroSpec, zeroSpec, zeroSpec, ⟨0, [], [], none⟩⟩

/-- Claim C4 (counterexample): the deadline is claimed to cover the
whole pipeline of every language.  A java job whose run process never
exits makes `executeCode` hang forever instead of resolving to the
timeout response, and a cpp job whose compile takes 60 s still
returns a normal 200 response because the timer only races the run
stage. -/
theorem c4_java_pipeline_unbounded :
    (executeCode javaHangEnv "public class Main \x7b\x7d" "java" "").outcome = .hangs ∧
    (apiExecute cppSlowCompileEnv (some "int main()\x7b\x7d") (some "cpp") (some "")).1 =
      some ⟨200, some "hi", none, none, 601 / 10, 0⟩ := by
  constructor
  · exact executeCode_java_hangs javaHangEnv _ "" 100 rfl rfl rfl rfl
  · have he := executeCode_cpp_ok cppSlowCompileEnv "int main()\x7b\x7d" "" 60000 100
      rfl rfl rfl rfl (by decide) rfl
    have hout : trimStr (stripPerfMetrics (String.join cppSlowCompileEnv.runSpec.stdoutChunks))
        = "hi" := by decide
    have ht : foldTime cppSlowCompileEnv.runSpec.stdoutChunks = 0 := by decide
    have hm : foldMem cppSlowCompileEnv.runSpec.stdoutChunks = 0 := by decide
    have herr : String.join cppSlowCompileEnv.runSpec.stderrChunks = "" := by decide
    have hdur : cppSlowCompileEnv.runSpec.durationMs = some 100 := rfl
    simp [apiExecute, he, genericResult, hout, ht, hm, herr, hdur]
    norm_num

/-- Claim C4 (amended): the fixed 10-second deadline guards only the
final run stage of the javascript, python and cpp paths (the timer is
created after any compile stage finishes); when that stage runs past
the deadline the process is killed and the job resolves to the fixed
`Execution timeout` error with empty output.  Java jobs are awaited
with no deadline at all: a never-exiting java run hangs the request
without any response. -/
theorem c4_amended_deadline_scope :
    (∀ (env : Env) (code input lang : String),
       (lang = "javascript" ∨ lang = "python" ∨
        (lang = "cpp" ∧ env.gppInstalled = true ∧ env.cppCompileSpec.exitCode = 0 ∧
         ∃ dC, env.cppCompileSpec.durationMs = some dC)) →
       (env.runSpec.durationMs = none ∨
        ∃ d, env.runSpec.durationMs = some d ∧ d > timeoutMs) →
       (executeCode env code lang input).outcome = .thrown "Execution timeout" ∧
       Ev.killEv ∈ (executeCode env code lang input).trace ∧
       (code ≠ "" → (apiExecute env (some code) (some lang) (some input)).1 =
          some ⟨500, some "", some "Execution timeout", none, 0, 0⟩)) ∧
    (∀ (env : Env) (code input : String) (dj : Nat),
       env.javaInstalled = true → env.javacSpec.durationMs = some dj →
       env.javacSpec.exitCode = 0 → env.javaRunSpec.durationMs = none →
       (executeCode env code "java" input).outcome = .hangs ∧
       (code ≠ "" → (apiExecute env (some code) (some "java") (some input)).1 = none)) := by
  constructor
  · intro env code input lang hlang hto
    have hT : timedOut env.runSpec = true := by
      rcases hto with h | ⟨d, hd, hgt⟩
      · simp [timedOut, h]
      · simp [timedOut, hd]
        exact hgt
    rcases hlang with h | h | ⟨h, hg, hcc, dC, hdc⟩ <;> subst h
    · have he := executeCode_js_timeout env code input hT
      exact ⟨by rw [he], by rw [he]; simp,
             fun hcode => apiExecute_of_thrown env code "javascript" input _ hcode (by decide)
               (by rw [he])⟩
    · have he := executeCode_py_timeout env code input hT
      exact ⟨by rw [he], by rw [he]; simp,
             fun hcode => apiExecute_of_thrown env code "python" input _ hcode (by decide)
               (by rw [he])⟩
    · have he := executeCode_cpp_timeout env code input dC hg hdc hcc hT
      exact ⟨by rw [he], by rw [he]; simp,
             fun hcode => apiExecute_of_thrown env code "cpp" input _ hcode (by decide)
               (by rw [he])⟩
  · intro env code input dj hj hdj hcj hrun
    have h := executeCode_java_hangs env code input dj hj hdj hcj hrun
    exact ⟨h, fun hcode => apiExecute_of_hangs env code "java" input hcode (by decide) h⟩

/-- Witness for the amended C4 theorem at concrete environments. -/
theorem c4_amended_witness :
    (executeCode jsHangEnv "while(1)\x7b\x7d" "javascript" "").outcome =
      .thrown "Execution timeout" ∧
    Ev.killEv ∈ (executeCode jsHangEnv "while(1)\x7b\x7d" "javascript" "").trace ∧
    (executeCode javaHangEnv "public class Main \x7b\x7d" "java" "").outcome = .hangs := by
  have h1 := c4_amended_deadline_scope.1 jsHangEnv "while(1)\x7b\x7d" "" "javascript"
    (Or.inl rfl) (Or.inl rfl)
  have h2 := c4_amended_deadline_scope.2 javaHangEnv "public class Main \x7b\x7d" "" 100
    rfl rfl rfl rfl
  exact ⟨h1.1, h1.2.1, h2.1⟩

/-- Claim C5 (confirmed): an unsupported language tag reaches the
`default` branch of the `switch`: nothing is ever spawned,
`executeCode` rejects with the `Unsupported language` message, no
file survives cleanup, and the route turns the rejection into a
well-formed response carrying that message. -/
theorem c5_unsupported_language_rejected (env : Env) (code input lang : String)
    (h1 : lang ≠ "javascript") (h2 : lang ≠ "python") (h3 : lang ≠ "java") (h4 : lang ≠ "cpp")
    (hcode : code ≠ "") (hlang : lang ≠ "") :
    spawnEvents (executeCode env code lang input).trace = [] ∧
    (executeCode env code lang input).outcome = .thrown ("Unsupported language: " ++ lang) ∧
    (executeCode env code lang input).fs = [] ∧
    (apiExecute env (some code) (some lang) (some input)).1 =
      some ⟨500, some "", some ("Unsupported language: " ++ lang), none, 0, 0⟩ := by
  have hb := execBodyRest_unsupported env code input (tmpFilePath env) lang h1 h2 h3 h4
  have he : executeCode env code lang input =
      ⟨.thrown ("Unsupported language: " ++ lang),
       [Ev.writeEv (tmpFilePath env) code, Ev.unlinkEv (tmpFilePath env)], []⟩ := by
    simp [executeCode, hb, probeEvs, h3, h4, finallyEvents, delIfExists, fsHas, fsDel]
  exact ⟨by rw [he]; simp [spawnEvents], by rw [he], by rw [he],
         apiExecute_of_thrown env code lang input _ hcode hlang (by rw [he])⟩

/-- Witness for C5 at the spec's own example tag `ruby`. -/
theorem c5_witness :
    spawnEvents (executeCode witnessEnv "puts 1" "ruby" "").trace = [] ∧
    (executeCode witnessEnv "puts 1" "ruby" "").outcome =
      .thrown ("Unsupported language: " ++ "ruby") ∧
    (executeCode witnessEnv "puts 1" "ruby" "").fs = [] ∧
    (apiExecute witnessEnv (some "puts 1") (some "ruby") (some "")).1 =
      some ⟨500, some "", some ("Unsupported language: " ++ "ruby"), none, 0, 0⟩ :=
  c5_unsupported_language_rejected witnessEnv "puts 1" "" "ruby"
    (by decide) (by decide) (by decide) (by decide) (by decide) (by decide)

/-- A java source declaring public class `Foo`. -/
def fooSrc : String :=
  "public class Foo \x7b public static void main(String[] args) \x7b System.out.println(7); \x7d \x7d"

/-- Claim C6 (code bug): the file-name derivation is as claimed (token
search for the declared public class, falling back to `Main`), and
the file is written literally under the derived name `Foo.java` — but
its content is the fixed demo `javaProgram`, not the submitted source
text, refuting the claim that the source file is written. -/
theorem c6_materializer_writes_fixed_program :
    extractClassName fooSrc = "Foo" ∧
    extractClassName "x = 1" = "Main" ∧
    Ev.writeEv "/tmp/Foo.java" (javaProgram "Foo") ∈
      (executeCode javaEnvOK fooSrc "java" "").trace ∧
    javaProgram "Foo" ≠ fooSrc := by
  have h1 : extractClassName fooSrc = "Foo" := by decide
  have hm := executeCode_java_writes_program javaEnvOK fooSrc "" rfl
  rw [h1] at hm
  exact ⟨h1, by decide, by simpa [tempDir] using hm, by decide⟩

/-- Claim C7 (counterexample): markers are claimed to be parsed from
the buffered stdout.  When the time-marker line is split across chunk
boundaries the buffer contains a parseable marker but the per-chunk
parse finds none, so the response's `executionTime` is the wall clock
(3 s), not the reported 1.5 s (the strip of the block from the
concatenated buffer still happens). -/
theorem c7_split_marker_not_parsed :
    (∀ ch ∈ splitMarkerEnv.runSpec.stdoutChunks, timeMarkerScanStr ch = none) ∧
    timeMarkerScanStr (String.join splitMarkerEnv.runSpec.stdoutChunks) ≠ none ∧
    (apiExecute splitMarkerEnv (some "x") (some "javascript") (some "")).1 =
      some ⟨200, some "", none, none, 3, 0⟩ := by
  refine ⟨by decide, by decide, ?_⟩
  have he := executeCode_js_ok splitMarkerEnv "x" "" 3000 rfl (by decide) rfl
  have hout : trimStr (stripPerfMetrics (String.join splitMarkerEnv.runSpec.stdoutChunks))
      = "" := by decide
  have ht : foldTime splitMarkerEnv.runSpec.stdoutChunks = 0 := by decide
  have hm : foldMem splitMarkerEnv.runSpec.stdoutChunks = 0 := by decide
  have herr : String.join splitMarkerEnv.runSpec.stderrChunks = "" := by decide
  have hdur : splitMarkerEnv.runSpec.durationMs = some 3000 := rfl
  simp [apiExecute, he, genericResult, hout, ht, hm, herr, hdur]
  norm_num

/-- Claim C7 (amended): markers are parsed per arriving stdout chunk
(the value of the last matching chunk wins), so a marker line split
across chunk boundaries is not parsed; when no chunk matches, the
`executionTime` falls back to the supervisor's wall clock and
`memoryUsage` stays 0; the strip of the performance-metrics block
operates on the full concatenated stdout. -/
theorem c7_amended_marker_handling (env : Env) (code input lang : String) (d : Nat)
    (hlang : lang = "javascript" ∨ lang = "python")
    (hd : env.runSpec.durationMs = some d) (hle : d ≤ timeoutMs) (hc : env.runSpec.exitCode = 0) :
    ∃ r, (executeCode env code lang input).outcome = .ok r ∧
      r.output = some (trimStr (stripPerfMetrics (String.join env.runSpec.stdoutChunks))) ∧
      ((∀ ch ∈ env.runSpec.stdoutChunks, timeMarkerScanStr ch = none) →
        r.executionTime = (d : ℚ) / 1000) ∧
      ((∀ ch ∈ env.runSpec.stdoutChunks, memMarkerScanStr ch = none) →
        r.memoryUsage = 0) := by
  rcases hlang with h | h <;> subst h
  · refine ⟨genericResult env.runSpec 0,
      by rw [executeCode_js_ok env code input d hd hle hc], by simp [genericResult], ?_, ?_⟩
    · intro hnone
      have h0 := foldTime_of_no_marker _ hnone
      simp [genericResult, h0, hd]
    · intro hnone
      have h0 := foldMem_of_no_marker _ hnone
      simp [genericResult, h0]
  · refine ⟨genericResult env.runSpec 0,
      by rw [executeCode_py_ok env code input d hd hle hc], by simp [genericResult], ?_, ?_⟩
    · intro hnone
      have h0 := foldTime_of_no_marker _ hnone
      simp [genericResult, h0, hd]
    · intro hnone
      have h0 := foldMem_of_no_marker _ hnone
      simp [genericResult, h0]

/-- Witness for the amended C7 theorem at a marker-free run. -/
theorem c7_amended_witness :
    ∃ r, (executeCode jsStderrEnv "console.log(1)" "javascript" "").outcome = .ok r ∧
      r.output = some (trimStr (stripPerfMetrics (String.join jsStderrEnv.runSpec.stdoutChunks))) ∧
      r.executionTime = (100 : ℚ) / 1000 ∧ r.memoryUsage = 0 := by
  obtain ⟨r, h1, h2, h3, h4⟩ := c7_amended_marker_handling jsStderrEnv "console.log(1)" ""
    "javascript" 100 (Or.inl rfl) rfl (by decide) rfl
  exact ⟨r, h1, h2, h3 (by decide), h4 (by decide)⟩

/-- Claim C8 (confirmed): for the two toolchain-dependent languages
the probe spawn is the first event of every trace, and when the
toolchain is missing the job fails with the specific `not installed`
message before any file is written, leaking nothing. -/
theorem c8_probe_precedes_artifacts (env : Env) (code input : String) :
    (executeCode env code "java" input).trace.head? =
      some (Ev.spawnEv "java" ["-version"] false) ∧
    (env.javaInstalled = false →
       (executeCode env code "java" input).outcome = .thrown javaMissingMsg ∧
       writeEvents (executeCode env code "java" input).trace = [] ∧
       (executeCode env code "java" input).fs = []) ∧
    (executeCode env code "cpp" input).trace.head? =
      some (Ev.spawnEv "g++" ["--version"] false) ∧
    (env.gppInstalled = false →
       (executeCode env code "cpp" input).outcome = .thrown gppMissingMsg ∧
       writeEvents (executeCode env code "cpp" input).trace = [] ∧
       (executeCode env code "cpp" input).fs = []) := by
  obtain ⟨tj, htj⟩ := executeCode_trace_probe env code "java" input
  obtain ⟨tc, htc⟩ := executeCode_trace_probe env code "cpp" input
  refine ⟨by rw [htj]; simp [probeEvs], fun h => ?_, by rw [htc]; simp [probeEvs], fun h => ?_⟩
  · rw [executeCode_probe_fail_java env code input h]
    exact ⟨rfl, by simp [writeEvents], rfl⟩
  · rw [executeCode_probe_fail_cpp env code input h]
    exact ⟨rfl, by simp [writeEvents], rfl⟩

/-- Witness for C8 on a machine with neither toolchain. -/
theorem c8_witness :
    (executeCode noToolchainEnv "class A \x7b\x7d" "java" "").outcome =
      .thrown javaMissingMsg ∧
    writeEvents (executeCode noToolchainEnv "class A \x7b\x7d" "java" "").trace = [] ∧
    (executeCode noToolchainEnv "class A \x7b\x7d" "java" "").fs = [] ∧
    (executeCode noToolchainEnv "class A \x7b\x7d" "cpp" "").outcome =
      .thrown gppMissingMsg := by
  have h := c8_probe_precedes_artifacts noToolchainEnv "class A \x7b\x7d" ""
  exact ⟨(h.2.1 rfl).1, (h.2.1 rfl).2.1, (h.2.1 rfl).2.2, (h.2.2.2 rfl).1⟩

/-- Claim C9 (confirmed): a request with a missing or empty `code` or
`language` field is answered by the fixed validation body (`errors`
set, empty output, zero times) and `executeCode` is never entered: no
write, no spawn, no file. -/
theorem c9_validation_short_circuits (env : Env) (code language input : Option String)
    (h : code.getD "" = "" ∨ language.getD "" = "") :
    apiExecute env code language input =
      (some ⟨400, some "", some "Code and language are required", none, 0, 0⟩, [], []) := by
  rcases h with h | h <;> simp [apiExecute, validationResponse, h]

/-- Witness for C9: a request with no `code` field. -/
theorem c9_witness :
    apiExecute witnessEnv none (some "python") none =
      (some ⟨400, some "", some "Code and language are required", none, 0, 0⟩, [], []) :=
  c9_validation_short_circuits witnessEnv none (some "python") none (Or.inl rfl)

/-- Claim C10 (confirmed): the `/api/abort` handler acknowledges with
`success: true` unconditionally, leaves every piece of state exactly
as it was, and emits no event (no kill, no write). -/
theorem c10_abort_is_noop {α : Type} (st : α) :
    apiAbort st = (true, st, []) := rfl

/-- Witness for C10 on a concrete process table. -/
theorem c10_witness :
    apiAbort ([("job1", 42)] : List (String × Nat)) = (true, [("job1", 42)], []) :=
  c10_abort_is_noop [("job1", 42)]

end CodeRunner
